import Mathlib

/-!
Verification development for the READ2ME data-access layer
(`src/database/crud.py`).

The Python module is a CRUD layer over a SQLite database with tables
`articles`, `texts`, `podcasts`, `authors`, `article_author` and
`seed_text`.  We give a shallow embedding: the database is an explicit
state (lists of rows), each operation is a pure function from state to
state (fallible operations return `Except`, where an error means the
transaction was not committed and the state is unchanged), and
`generate_hash` is embedded down to the bit level (SHA-256, URL-safe
Base64, UTF-8), since its output is used as every primary key.
-/

set_option maxRecDepth 100000

namespace Crud

/-! ## `generate_hash`: SHA-256, URL-safe Base64, UTF-8

Python: `base64.urlsafe_b64encode(hashlib.sha256(value.encode()).digest())[:6].decode("utf-8")`.
All arithmetic is on `Nat` with explicit reduction mod 2^32. -/

/-- Reduce to a 32-bit word, as all SHA-256 word operations do. -/
def w32 (n : Nat) : Nat := n % 4294967296

/-- 32-bit right rotation (operands are < 2^32). -/
def rotr32 (x n : Nat) : Nat := w32 ((x >>> n) ||| (x <<< (32 - n)))

def smallSigma0 (x : Nat) : Nat := rotr32 x 7 ^^^ rotr32 x 18 ^^^ (x >>> 3)
def smallSigma1 (x : Nat) : Nat := rotr32 x 17 ^^^ rotr32 x 19 ^^^ (x >>> 10)
def bigSigma0 (x : Nat) : Nat := rotr32 x 2 ^^^ rotr32 x 13 ^^^ rotr32 x 22
def bigSigma1 (x : Nat) : Nat := rotr32 x 6 ^^^ rotr32 x 11 ^^^ rotr32 x 25

/-- The 64 SHA-256 round constants (FIPS 180-2), in decimal. -/
def K256 : List Nat :=
  [1116352408, 1899447441, 3049323471, 3921009573,
   961987163, 1508970993, 2453635748, 2870763221,
   3624381080, 310598401, 607225278, 1426881987,
   1925078388, 2162078206, 2614888103, 3248222580,
   3835390401, 4022224774, 264347078, 604807628,
   770255983, 1249150122, 1555081692, 1996064986,
   2554220882, 2821834349, 2952996808, 3210313671,
   3336571891, 3584528711, 113926993, 338241895,
   666307205, 773529912, 1294757372, 1396182291,
   1695183700, 1986661051, 2177026350, 2456956037,
   2730485921, 2820302411, 3259730800, 3345764771,
   3516065817, 3600352804, 4094571909, 275423344,
   430227734, 506948616, 659060556, 883997877,
   958139571, 1322822218, 1537002063, 1747873779,
   1955562222, 2024104815, 2227730452, 2361852424,
   2428436474, 2756734187, 3204031479, 3329325298]

/-- The eight 32-bit working variables of SHA-256. -/
structure Hash8 where
  a : Nat
  b : Nat
  c : Nat
  d : Nat
  e : Nat
  f : Nat
  g : Nat
  h : Nat
deriving Repr, DecidableEq

/-- SHA-256 initial hash value (FIPS 180-2), in decimal. -/
def sha256Init : Hash8 :=
  ⟨1779033703, 3144134277, 1013904242, 2773480762,
   1359893119, 2600822924, 528734635, 1541459225⟩

/-- Big-endian 32-bit words from a byte list (full 4-byte groups only). -/
def bytesToWords : List Nat → List Nat
  | b0 :: b1 :: b2 :: b3 :: rest =>
      (b0 * 16777216 + b1 * 65536 + b2 * 256 + b3) :: bytesToWords rest
  | _ => []

/-- Extend a 16-word block to the 64-word message schedule (48 steps of fuel). -/
def extendSchedule (ws : List Nat) : Nat → List Nat
  | 0 => ws
  | n + 1 =>
      let i := ws.length
      let nw := w32 (ws.getD (i - 16) 0 + smallSigma0 (ws.getD (i - 15) 0) +
                     ws.getD (i - 7) 0 + smallSigma1 (ws.getD (i - 2) 0))
      extendSchedule (ws ++ [nw]) n

/-- One SHA-256 round: fold the working variables over a (round constant, schedule word) pair. -/
def compressStep (st : Hash8) (kw : Nat × Nat) : Hash8 :=
  let ch := (st.e &&& st.f) ^^^ ((st.e ^^^ 4294967295) &&& st.g)
  let t1 := w32 (st.h + bigSigma1 st.e + ch + kw.1 + kw.2)
  let maj := (st.a &&& st.b) ^^^ (st.a &&& st.c) ^^^ (st.b &&& st.c)
  let t2 := w32 (bigSigma0 st.a + maj)
  ⟨w32 (t1 + t2), st.a, st.b, st.c, w32 (st.d + t1), st.e, st.f, st.g⟩

/-- Compress one 64-byte chunk into the running hash value. -/
def processChunk (st : Hash8) (chunk : List Nat) : Hash8 :=
  let ws := extendSchedule (bytesToWords chunk) 48
  let t := (K256.zip ws).foldl compressStep st
  ⟨w32 (st.a + t.a), w32 (st.b + t.b), w32 (st.c + t.c), w32 (st.d + t.d),
   w32 (st.e + t.e), w32 (st.f + t.f), w32 (st.g + t.g), w32 (st.h + t.h)⟩

/-- The message length in bits as 8 big-endian bytes. -/
def lenBytes (n : Nat) : List Nat :=
  let m := n % 18446744073709551616
  [(m >>> 56) % 256, (m >>> 48) % 256, (m >>> 40) % 256, (m >>> 32) % 256,
   (m >>> 24) % 256, (m >>> 16) % 256, (m >>> 8) % 256, m % 256]

/-- SHA-256 padding: a 0x80 byte, zeros to 56 mod 64, then the bit length. -/
def shaPad (msg : List Nat) : List Nat :=
  let len := msg.length
  msg ++ [128] ++ List.replicate ((119 - len % 64) % 64) 0 ++ lenBytes (len * 8)

/-- Process the padded message 64 bytes at a time; fuel is the chunk count. -/
def processChunks (st : Hash8) (bytes : List Nat) : Nat → Hash8
  | 0 => st
  | n + 1 => processChunks (processChunk st (bytes.take 64)) (bytes.drop 64) n

/-- Big-endian bytes of one 32-bit word. -/
def wordBytes (w : Nat) : List Nat :=
  [(w >>> 24) % 256, (w >>> 16) % 256, (w >>> 8) % 256, w % 256]

/-- The 32 digest bytes of a final hash state. -/
def digestBytes (st : Hash8) : List Nat :=
  wordBytes st.a ++ wordBytes st.b ++ wordBytes st.c ++ wordBytes st.d ++
  wordBytes st.e ++ wordBytes st.f ++ wordBytes st.g ++ wordBytes st.h

/-- SHA-256 of a byte list. -/
def sha256 (msg : List Nat) : List Nat :=
  let padded := shaPad msg
  digestBytes (processChunks sha256Init padded (padded.length / 64))

/-- UTF-8 encoding of one character (Python `str.encode()`), as byte values. -/
def utf8EncodeCharNat (c : Char) : List Nat :=
  let n := c.toNat
  if n < 128 then [n]
  else if n < 2048 then [192 + n / 64, 128 + n % 64]
  else if n < 65536 then [224 + n / 4096, 128 + (n / 64) % 64, 128 + n % 64]
  else [240 + n / 262144, 128 + (n / 4096) % 64, 128 + (n / 64) % 64, 128 + n % 64]

/-- UTF-8 bytes of a string (Python `value.encode()`). -/
def utf8Bytes (s : String) : List Nat :=
  s.data.flatMap utf8EncodeCharNat

/-- The URL-safe Base64 alphabet (RFC 4648 §5), as used by `base64.urlsafe_b64encode`. -/
def b64UrlsafeAlphabet : List Char :=
  ['A','B','C','D','E','F','G','H','I','J','K','L','M','N','O','P','Q','R','S','T','U','V','W','X','Y','Z',
   'a','b','c','d','e','f','g','h','i','j','k','l','m','n','o','p','q','r','s','t','u','v','w','x','y','z',
   '0','1','2','3','4','5','6','7','8','9','-','_']

def b64Char (n : Nat) : Char := b64UrlsafeAlphabet.getD n 'A'

/-- URL-safe Base64 encoding of a byte list, with `=` padding. -/
def b64encode : List Nat → List Char
  | [] => []
  | [a] => [b64Char (a >>> 2), b64Char ((a % 4) <<< 4), '=', '=']
  | [a, b] => [b64Char (a >>> 2), b64Char (((a % 4) <<< 4) ||| (b >>> 4)),
               b64Char ((b % 16) <<< 2), '=']
  | a :: b :: c :: rest =>
      b64Char (a >>> 2) :: b64Char (((a % 4) <<< 4) ||| (b >>> 4)) ::
      b64Char (((b % 16) <<< 2) ||| (c >>> 6)) :: b64Char (c % 64) ::
      b64encode rest

/-- `generate_hash` from the source: SHA-256 of the UTF-8 bytes of `value`,
URL-safe Base64 of the digest, first 6 characters. -/
def generate_hash (value : String) : String :=
  String.mk ((b64encode (sha256 (utf8Bytes value))).take 6)

/-! ## `date_published` normalization in `create_article`

Python: `datetime.strptime(date_published, "%Y-%m-%d").strftime("%Y-%m-%d")`,
with `ValueError` mapped to `None`, and falsy (`None` / empty) input mapped
to `None`. -/

def isDigitChar (c : Char) : Bool := 48 ≤ c.toNat && c.toNat ≤ 57

def digitsVal (cs : List Char) : Nat := cs.foldl (fun n c => 10 * n + (c.toNat - 48)) 0

/-- Split a character list on `'-'` (the literal separators of `"%Y-%m-%d"`). -/
def splitDash : List Char → List (List Char)
  | [] => [[]]
  | c :: cs =>
      let r := splitDash cs
      if c = '-' then [] :: r
      else match r with
        | g :: gs => (c :: g) :: gs
        | [] => [[c]]

def isLeapYear (y : Nat) : Bool := y % 4 == 0 && (y % 100 != 0 || y % 400 == 0)

def daysInMonth (y m : Nat) : Nat :=
  if m = 2 then (if isLeapYear y then 29 else 28)
  else if m = 4 ∨ m = 6 ∨ m = 9 ∨ m = 11 then 30
  else 31

/-- `datetime.strptime(s, "%Y-%m-%d")`: exactly 4 digits of year (year ≥ 1),
1–2 digits of month and day, and a valid calendar date (so `"2024-02-30"`
fails), with nothing left over. -/
def parseYMD (s : String) : Option (Nat × Nat × Nat) :=
  match splitDash s.data with
  | [ys, ms, ds] =>
      if ys.length = 4 ∧ ys.all isDigitChar ∧
         1 ≤ ms.length ∧ ms.length ≤ 2 ∧ ms.all isDigitChar ∧
         1 ≤ ds.length ∧ ds.length ≤ 2 ∧ ds.all isDigitChar then
        let y := digitsVal ys
        let m := digitsVal ms
        let d := digitsVal ds
        if 1 ≤ y ∧ 1 ≤ m ∧ m ≤ 12 ∧ 1 ≤ d ∧ d ≤ daysInMonth y m then some (y, m, d)
        else none
      else none
  | _ => none

def padZeros (w : Nat) (n : Nat) : String :=
  let s := toString n
  String.mk (List.replicate (w - s.length) '0') ++ s

/-- `strftime("%Y-%m-%d")` on a parsed date. -/
def formatYMD : Nat × Nat × Nat → String
  | (y, m, d) => padZeros 4 y ++ "-" ++ padZeros 2 m ++ "-" ++ padZeros 2 d

/-- The `date_published` handling at the top of `create_article`: falsy or
unparseable input becomes `None`, a valid date is reformatted. -/
def normalize_date_published : Option String → Option String
  | none => none
  | some s => if s = "" then none else (parseYMD s).map formatYMD

/-! ## Database state

One list of rows per table.  SQL `NULL` is `Option.none`; all stored values
are text.  `authors` rows carry the SQLite integer rowid that
`cursor.lastrowid` reports after `INSERT INTO authors (name) VALUES (?)`. -/

structure ArticleRow where
  id : String
  url : Option String := none
  title : Option String := none
  date_published : Option String := none
  date_added : Option String := none
  language : Option String := none
  plain_text : Option String := none
  markdown_text : Option String := none
  tl_dr : Option String := none
  audio_file : Option String := none
  markdown_file : Option String := none
  vtt_file : Option String := none
deriving Repr, DecidableEq

structure TextRow where
  id : String
  text : Option String := none
  date_added : Option String := none
  language : Option String := none
  plain_text : Option String := none
  audio_file : Option String := none
deriving Repr, DecidableEq

structure PodcastRow where
  id : String
  title : Option String := none
  text : Option String := none
  date_added : Option String := none
  language : Option String := none
  plain_text : Option String := none
  audio_file : Option String := none
  markdown_file : Option String := none
deriving Repr, DecidableEq

structure AuthorRow where
  rowid : Nat
  name : String
deriving Repr, DecidableEq

/-- The whole database: `articles`, `texts`, `podcasts`, `authors`, the
`article_author` join (article id, author rowid) and the `seed_text` join
(podcast id, article id, text id). -/
structure DB where
  articles : List ArticleRow := []
  texts : List TextRow := []
  podcasts : List PodcastRow := []
  authors : List AuthorRow := []
  article_author : List (String × Nat) := []
  seed_text : List (String × Option String × Option String) := []
deriving Repr, DecidableEq

/-- Storage-layer failures surfaced to the caller.  `integrityError` is
sqlite3's uniqueness violation; on error nothing was committed, so the
caller's database state is unchanged. -/
inductive SqlErr
  | integrityError
deriving Repr, DecidableEq

/-! ## Dynamic UPDATE statements

`update_article`/`update_text`/`update_podcast` build
`UPDATE articles SET <keys> WHERE id = ?` from a field mapping.  A mapping
key is a (non-key) column of the `articles` table — the source interpolates
the keys into the statement unchecked, and the spec directs treating them
as this closed enumeration. -/

inductive ArticleColumn
  | url | title | date_published | date_added | language | plain_text
  | markdown_text | tl_dr | audio_file | markdown_file | vtt_file
deriving Repr, DecidableEq

def setArticleColumn (r : ArticleRow) : ArticleColumn → Option String → ArticleRow
  | .url, v => {r with url := v}
  | .title, v => {r with title := v}
  | .date_published, v => {r with date_published := v}
  | .date_added, v => {r with date_added := v}
  | .language, v => {r with language := v}
  | .plain_text, v => {r with plain_text := v}
  | .markdown_text, v => {r with markdown_text := v}
  | .tl_dr, v => {r with tl_dr := v}
  | .audio_file, v => {r with audio_file := v}
  | .markdown_file, v => {r with markdown_file := v}
  | .vtt_file, v => {r with vtt_file := v}

/-- Apply a `SET` clause left to right to one row. -/
def applyUpdates (r : ArticleRow) (fs : List (ArticleColumn × Option String)) : ArticleRow :=
  fs.foldl (fun r cv => setArticleColumn r cv.1 cv.2) r

/-- `update_article`: empty mapping is a no-op signalled by a `None` return
(the source prints and returns without executing SQL); otherwise the rows of
`articles` matching the id are updated and `cursor.rowcount` is returned. -/
def update_article (db : DB) (article_id : String)
    (updated_fields : List (ArticleColumn × Option String)) : DB × Option Nat :=
  if updated_fields.isEmpty then (db, none)
  else
    ({db with articles :=
        db.articles.map fun r => if r.id == article_id then applyUpdates r updated_fields else r},
     some (db.articles.countP fun r => r.id == article_id))

/-- `update_text`: the source's statement reads `UPDATE articles SET … WHERE
id = ?`, so it mutates the `articles` table, not `texts`. -/
def update_text (db : DB) (text_id : String)
    (updated_fields : List (ArticleColumn × Option String)) : DB × Option Nat :=
  if updated_fields.isEmpty then (db, none)
  else
    ({db with articles :=
        db.articles.map fun r => if r.id == text_id then applyUpdates r updated_fields else r},
     some (db.articles.countP fun r => r.id == text_id))

/-- `update_podcast`: same statement as `update_text` — it also targets the
`articles` table in the source. -/
def update_podcast (db : DB) (podcast_id : String)
    (updated_fields : List (ArticleColumn × Option String)) : DB × Option Nat :=
  if updated_fields.isEmpty then (db, none)
  else
    ({db with articles :=
        db.articles.map fun r => if r.id == podcast_id then applyUpdates r updated_fields else r},
     some (db.articles.countP fun r => r.id == podcast_id))

/-! ## `ORDER BY date_added DESC`

SQLite's BINARY collation compares UTF-8 bytes; byte order on UTF-8 agrees
with code-point order, modelled on the character list.  `NULL` is the SQL
minimum, so `DESC` puts it last. -/

def charListLe : List Char → List Char → Bool
  | [], _ => true
  | _ :: _, [] => false
  | a :: as, b :: bs =>
      if a.toNat < b.toNat then true
      else if b.toNat < a.toNat then false
      else charListLe as bs

def strLe (x y : String) : Bool := charListLe x.data y.data

/-- `a` may precede `b` under `ORDER BY date_added DESC`. -/
def dateDescLe (a b : ArticleRow) : Bool :=
  match a.date_added, b.date_added with
  | none, none => true
  | none, some _ => false
  | some _, none => true
  | some x, some y => strLe y x

/-- `get_articles(skip, limit)`: `SELECT * FROM articles ORDER BY date_added
DESC LIMIT ? OFFSET ?`. -/
def get_articles (db : DB) (skip : Nat := 0) (limit : Nat := 100) : List ArticleRow :=
  ((db.articles.mergeSort dateDescLe).drop skip).take limit

def get_article (db : DB) (article_id : String) : Option ArticleRow :=
  db.articles.find? fun r => r.id == article_id

def get_total_articles (db : DB) : Nat := db.articles.length

def article_exists (db : DB) (article_id : String) : Bool :=
  (db.articles.find? fun r => r.id == article_id).isSome

/-- `delete_article`: remove by id, return `cursor.rowcount`. -/
def delete_article (db : DB) (article_id : String) : DB × Nat :=
  ({db with articles := db.articles.filter fun r => !(r.id == article_id)},
   db.articles.countP fun r => r.id == article_id)

/-! ## Creation operations

The `*_data` dictionaries are embedded as structures over the keys the
source reads; keys read with plain indexing (`data["url"]`, `data["text"]`,
`data["title"]`) are required fields, keys read with `.get` are optional.
`datetime.today().strftime("%Y-%m-%d")` is passed in as `today`. -/

structure ArticleInput where
  url : String
  title : Option String := none
  date_published : Option String := none
  date_added : Option String := none
  language : Option String := none
  plain_text : Option String := none
  markdown_text : Option String := none
  tl_dr : Option String := none
  audio_file : Option String := none
  markdown_file : Option String := none
  vtt_file : Option String := none
deriving Repr, DecidableEq

structure TextInput where
  text : String
  title : Option String := none
  date_added : Option String := none
  language : Option String := none
  plain_text : Option String := none
  audio_file : Option String := none
  img_file : Option String := none
deriving Repr, DecidableEq

structure PodcastInput where
  title : String
  text : Option String := none
  date_added : Option String := none
  language : Option String := none
  plain_text : Option String := none
  audio_file : Option String := none
  markdown_file : Option String := none
deriving Repr, DecidableEq

/-- `cursor.lastrowid` after `INSERT INTO authors (name)`: SQLite assigns
max existing rowid + 1. -/
def maxRowid (l : List AuthorRow) : Nat := l.foldl (fun m r => max m r.rowid) 0

/-- The author loop of `create_article`: for each name, find the author row
by exact name match or insert a new one, then add an `article_author` join
row. -/
def addAuthorLinks (article_id : String) (db : DB) : List String → DB
  | [] => db
  | name :: rest =>
      match db.authors.find? (fun a => a.name == name) with
      | some a =>
          addAuthorLinks article_id
            {db with article_author := db.article_author ++ [(article_id, a.rowid)]} rest
      | none =>
          let rid := maxRowid db.authors + 1
          addAuthorLinks article_id
            {db with authors := db.authors ++ [⟨rid, name⟩],
                     article_author := db.article_author ++ [(article_id, rid)]} rest

/-- `create_article`: normalize `date_published`, insert the article row with
id `generate_hash(url)` (violating the primary key raises
`sqlite3.IntegrityError`, which the source does not catch), then run the
author find-or-create loop. -/
def create_article (today : String) (db : DB) (a : ArticleInput)
    (author_names : Option (List String) := none) : Except SqlErr DB :=
  let dp := normalize_date_published a.date_published
  let id := generate_hash a.url
  if db.articles.any (fun r => r.id == id) then .error .integrityError
  else
    let row : ArticleRow :=
      { id := id, url := some a.url, title := a.title, date_published := dp,
        date_added := some (a.date_added.getD today), language := a.language,
        plain_text := a.plain_text, markdown_text := a.markdown_text, tl_dr := a.tl_dr,
        audio_file := a.audio_file, markdown_file := a.markdown_file,
        vtt_file := a.vtt_file }
    .ok (addAuthorLinks id {db with articles := db.articles ++ [row]} (author_names.getD []))

/-- `create_text`: `INSERT INTO texts (id, text, date_added, language,
plain_text)` with id `generate_hash(text)` — the statement covers no other
column, so `audio_file` is left `NULL` whatever the input holds. -/
def create_text (today : String) (db : DB) (t : TextInput) : Except SqlErr DB :=
  let id := generate_hash t.text
  if db.texts.any (fun r => r.id == id) then .error .integrityError
  else
    .ok {db with texts := db.texts ++
          [{ id := id, text := some t.text, date_added := some (t.date_added.getD today),
             language := t.language, plain_text := t.plain_text }]}

/-- `create_podcast_db_entry`: insert the podcast row with id
`generate_hash(title)`, then a `seed_text` join row if either seed id is
given. -/
def create_podcast_db_entry (today : String) (db : DB) (p : PodcastInput)
    (seed_text_id : Option String := none) (seed_article_id : Option String := none) :
    Except SqlErr DB :=
  let id := generate_hash p.title
  if db.podcasts.any (fun r => r.id == id) then .error .integrityError
  else
    let row : PodcastRow :=
      { id := id, title := some p.title, text := p.text,
        date_added := some (p.date_added.getD today), language := p.language,
        plain_text := p.plain_text, audio_file := p.audio_file,
        markdown_file := p.markdown_file }
    let db1 := {db with podcasts := db.podcasts ++ [row]}
    .ok (if seed_text_id.isSome ∨ seed_article_id.isSome then
           {db1 with seed_text := db1.seed_text ++ [(id, seed_article_id, seed_text_id)]}
         else db1)

/-! ## `fetch_available_media`

Three queries filtered to rows with a non-null `audio_file`, concatenated
and mapped into `AvailableMedia`.  The pydantic model requires `id`,
`title`, `date_added` and `type` to be strings — a `NULL` in any of them
makes the constructor raise a validation error (the texts query selects
`NULL as title`). -/

structure RawMediaRow where
  id : Option String
  title : Option String
  date_added : Option String
  date_published : Option String
  authors : Option String
  text : Option String
  type : String
deriving Repr, DecidableEq

structure AvailableMedia where
  id : String
  title : String
  date_added : String
  date_published : Option String := none
  authors : List String := []
  text : Option String := none
  type : String
deriving Repr, DecidableEq

inductive FetchError
  | validationError
deriving Repr, DecidableEq

/-- Python truthiness of `row[4]` (the group_concat column). -/
def truthyOptStr : Option String → Bool
  | none => false
  | some s => !(s == "")

/-- `",".join` / `group_concat` with the default separator. -/
def joinComma : List String → String
  | [] => ""
  | [s] => s
  | s :: rest => s ++ "," ++ joinComma rest

/-- Python `str.split(",")`. -/
def pySplit (s : String) : List String := s.splitOn ","

/-- `group_concat(authors.name)` over the LEFT JOIN group of one article:
`NULL` when the article has no joined author. -/
def group_concat_authors (db : DB) (article_id : String) : Option String :=
  let names := (db.article_author.filter (fun j => j.1 == article_id)).filterMap
      (fun j => (db.authors.find? (fun a => a.rowid == j.2)).map (fun a => a.name))
  if names.isEmpty then none else some (joinComma names)

/-- The `AvailableMedia(...)` constructor call of the source, including the
pydantic validation of the required string fields. -/
def mkAvailableMedia (row : RawMediaRow) : Except FetchError AvailableMedia :=
  match row.id, row.title, row.date_added with
  | some i, some t, some d =>
      .ok { id := i, title := t, date_added := d, date_published := row.date_published,
            authors := if truthyOptStr row.authors then pySplit (row.authors.getD "") else [],
            text := row.text, type := row.type }
  | _, _, _ => .error .validationError

def fetch_available_media (db : DB) : Except FetchError (List AvailableMedia) :=
  let articleRows := (db.articles.filter (fun r => r.audio_file.isSome)).map fun r =>
    ({ id := some r.id, title := r.title, date_added := r.date_added,
       date_published := r.date_published, authors := group_concat_authors db r.id,
       text := r.plain_text, type := "article" } : RawMediaRow)
  let podcastRows := (db.podcasts.filter (fun r => r.audio_file.isSome)).map fun r =>
    ({ id := some r.id, title := r.title, date_added := r.date_added,
       date_published := none, authors := none, text := r.text,
       type := "podcast" } : RawMediaRow)
  let textRows := (db.texts.filter (fun r => r.audio_file.isSome)).map fun r =>
    ({ id := some r.id, title := none, date_added := r.date_added,
       date_published := none, authors := none, text := r.plain_text,
       type := "text" } : RawMediaRow)
  (articleRows ++ podcastRows ++ textRows).mapM mkAvailableMedia

/-- The `articles` row that one `create_article` call inserts. -/
def articleRow (today : String) (a : ArticleInput) : ArticleRow :=
  { id := generate_hash a.url, url := some a.url, title := a.title,
    date_published := normalize_date_published a.date_published,
    date_added := some (a.date_added.getD today), language := a.language,
    plain_text := a.plain_text, markdown_text := a.markdown_text, tl_dr := a.tl_dr,
    audio_file := a.audio_file, markdown_file := a.markdown_file,
    vtt_file := a.vtt_file }

/-- Five distinct articles, used as concrete pagination data. -/
def sampleArticles : List ArticleRow :=
  [{ id := "a", date_added := some "2024-01-05" },
   { id := "b", date_added := some "2024-01-04" },
   { id := "c", date_added := some "2024-01-03" },
   { id := "d", date_added := some "2024-01-02" },
   { id := "e", date_added := some "2024-01-01" }]

/-! ## Helper lemmas -/

-- FIPS 180-2 test vector: SHA-256("abc") starts ba7816bf..., whose URL-safe
-- Base64 encoding starts "ungWv4".
example : generate_hash "abc" = "ungWv4" := by decide

/-- A SHA-256 digest always has 32 bytes. -/
theorem sha256_length (msg : List Nat) : (sha256 msg).length = 32 := rfl

/-- Base64 encodes ⌈n/3⌉ byte groups into 4 characters each. -/
theorem b64encode_length : ∀ l : List Nat, (b64encode l).length = 4 * ((l.length + 2) / 3)
  | [] => rfl
  | [_] => by simp [b64encode]
  | [_, _] => by simp [b64encode]
  | _ :: _ :: _ :: rest => by
      simp only [b64encode, List.length_cons, b64encode_length rest]
      omega

theorem charListLe_total (x y : List Char) : charListLe x y || charListLe y x := by
  induction x generalizing y with
  | nil => simp [charListLe]
  | cons a as ih =>
      cases y with
      | nil => simp [charListLe]
      | cons b bs =>
          simp only [charListLe]
          rcases Nat.lt_trichotomy a.toNat b.toNat with h | h | h
          · simp [h, Nat.not_lt.mpr (Nat.le_of_lt h)]
          · simpa [h, Nat.lt_irrefl] using ih bs
          · simp [h, Nat.not_lt.mpr (Nat.le_of_lt h)]

theorem charListLe_trans :
    ∀ x y z : List Char, charListLe x y → charListLe y z → charListLe x z
  | [], _, _ => fun _ _ => rfl
  | _ :: _, [], _ => fun h _ => by simp [charListLe] at h
  | _ :: _, _ :: _, [] => fun _ h => by simp [charListLe] at h
  | a :: as, b :: bs, c :: cs => fun h1 h2 => by
      simp only [charListLe] at h1 h2 ⊢
      split_ifs at h1 h2 ⊢ <;>
        first
          | rfl
          | (exact charListLe_trans as bs cs h1 h2)
          | (exfalso; omega)

theorem dateDescLe_total (a b : ArticleRow) : dateDescLe a b || dateDescLe b a := by
  unfold dateDescLe
  cases a.date_added <;> cases b.date_added <;> simp [strLe, charListLe_total]

theorem dateDescLe_trans (a b c : ArticleRow) :
    dateDescLe a b → dateDescLe b c → dateDescLe a c := by
  unfold dateDescLe
  cases ha : a.date_added <;> cases hb : b.date_added <;> cases hc : c.date_added <;>
    simp [strLe]
  exact fun h1 h2 => charListLe_trans _ _ _ h2 h1

/-- The author loop never touches the `articles` table. -/
theorem addAuthorLinks_articles (aid : String) :
    ∀ (names : List String) (db : DB), (addAuthorLinks aid db names).articles = db.articles
  | [], _ => rfl
  | n :: ns, db => by
      simp only [addAuthorLinks]
      cases db.authors.find? (fun a => a.name == n) <;>
        simp [addAuthorLinks_articles aid ns]

/-- The author loop never touches the `texts` table. -/
theorem addAuthorLinks_texts (aid : String) :
    ∀ (names : List String) (db : DB), (addAuthorLinks aid db names).texts = db.texts
  | [], _ => rfl
  | n :: ns, db => by
      simp only [addAuthorLinks]
      cases db.authors.find? (fun a => a.name == n) <;>
        simp [addAuthorLinks_texts aid ns]

/-- A successful `create_article` appends exactly one `articles` row, keyed
by the hash of the URL. -/
theorem create_article_ok_articles (today : String) (db db' : DB) (a : ArticleInput)
    (names : Option (List String)) (h : create_article today db a names = .ok db') :
    ∃ r, db'.articles = db.articles ++ [r] ∧ r.id = generate_hash a.url := by
  unfold create_article at h
  by_cases hdup : db.articles.any (fun r => r.id == generate_hash a.url) = true
  · simp [hdup] at h
  · simp [hdup] at h
    exact ⟨_, by rw [← h, addAuthorLinks_articles], rfl⟩

/-! ## Claims -/

/-- C3: `generate_hash` is a pure deterministic function; its result is the
first 6 characters of the URL-safe Base64 encoding of the SHA-256 digest of
the input's UTF-8 bytes, and it has length exactly 6 on every input. -/
theorem generate_hash_deterministic_fixed_length (s : String) :
    generate_hash s = generate_hash s ∧
    generate_hash s = String.mk ((b64encode (sha256 (utf8Bytes s))).take 6) ∧
    (generate_hash s).length = 6 := by
  refine ⟨rfl, rfl, ?_⟩
  show ((b64encode (sha256 (utf8Bytes s))).take 6).length = 6
  rw [List.length_take, b64encode_length, sha256_length]
  decide

/-- C5: `update_article` with an empty field mapping executes no SQL, leaves
the database unchanged, and returns the "nothing to update" signal (`none`)
instead of a row count. -/
theorem update_article_empty_mapping (db : DB) (article_id : String) :
    update_article db article_id [] = (db, none) := rfl

/-- C1: `update_text` and `update_podcast` issue their UPDATE against the
`articles` table: the `texts` and `podcasts` tables are unchanged, and the
field mapping is applied to the matching `articles` row. -/
theorem update_text_update_podcast_target_articles_table
    (db : DB) (idv : String) (fs : List (ArticleColumn × Option String)) (h : fs ≠ []) :
    ((update_text db idv fs).1.texts = db.texts ∧
     (update_text db idv fs).1.podcasts = db.podcasts ∧
     (update_text db idv fs).1.articles =
       db.articles.map (fun r => if r.id == idv then applyUpdates r fs else r)) ∧
    ((update_podcast db idv fs).1.texts = db.texts ∧
     (update_podcast db idv fs).1.podcasts = db.podcasts ∧
     (update_podcast db idv fs).1.articles =
       db.articles.map (fun r => if r.id == idv then applyUpdates r fs else r)) := by
  have hne : fs.isEmpty = false := by cases fs <;> simp_all
  refine ⟨⟨?_, ?_, ?_⟩, ⟨?_, ?_, ?_⟩⟩ <;> simp [update_text, update_podcast, hne]

/-- Witness for C1 at a one-article database and the mapping
`{"title": "new"}`. -/
theorem update_text_update_podcast_target_articles_table_witness :
    ([(ArticleColumn.title, some "new")] : List (ArticleColumn × Option String)) ≠ [] ∧
    (((update_text { articles := [{ id := "h1" }] } "h1"
        [(ArticleColumn.title, some "new")]).1.texts =
          ({ articles := [{ id := "h1" }] } : DB).texts ∧
      (update_text { articles := [{ id := "h1" }] } "h1"
        [(ArticleColumn.title, some "new")]).1.podcasts =
          ({ articles := [{ id := "h1" }] } : DB).podcasts ∧
      (update_text { articles := [{ id := "h1" }] } "h1"
        [(ArticleColumn.title, some "new")]).1.articles =
          ({ articles := [{ id := "h1" }] } : DB).articles.map
            (fun r => if r.id == "h1" then applyUpdates r [(ArticleColumn.title, some "new")] else r)) ∧
     ((update_podcast { articles := [{ id := "h1" }] } "h1"
        [(ArticleColumn.title, some "new")]).1.texts =
          ({ articles := [{ id := "h1" }] } : DB).texts ∧
      (update_podcast { articles := [{ id := "h1" }] } "h1"
        [(ArticleColumn.title, some "new")]).1.podcasts =
          ({ articles := [{ id := "h1" }] } : DB).podcasts ∧
      (update_podcast { articles := [{ id := "h1" }] } "h1"
        [(ArticleColumn.title, some "new")]).1.articles =
          ({ articles := [{ id := "h1" }] } : DB).articles.map
            (fun r => if r.id == "h1" then applyUpdates r [(ArticleColumn.title, some "new")] else r))) :=
  ⟨by simp,
   update_text_update_podcast_target_articles_table
     { articles := [{ id := "h1" }] } "h1" [(ArticleColumn.title, some "new")] (by simp)⟩

/-- C6: with a non-empty field mapping, `update_article` on an id matching
no `articles` row raises no error and returns a row count of `some 0`,
leaving the database unchanged; on an id matching exactly one row it
returns `some 1`. -/
theorem update_article_rowcount
    (db : DB) (idv : String) (fs : List (ArticleColumn × Option String)) (h : fs ≠ []) :
    ((∀ r ∈ db.articles, r.id ≠ idv) → update_article db idv fs = (db, some 0)) ∧
    (db.articles.countP (fun r => r.id == idv) = 1 →
      (update_article db idv fs).2 = some 1) := by
  have hne : fs.isEmpty = false := by cases fs <;> simp_all
  constructor
  · intro hnone
    have hmap : db.articles.map (fun r => if r.id = idv then applyUpdates r fs else r) =
        db.articles := by
      calc db.articles.map (fun r => if r.id = idv then applyUpdates r fs else r)
          = db.articles.map id := List.map_congr_left (fun r hr => by simp [hnone r hr])
        _ = db.articles := List.map_id _
    have hcount : db.articles.countP (fun r => r.id == idv) = 0 :=
      List.countP_eq_zero.mpr (fun r hr => by simp [hnone r hr])
    simp [update_article, hne, hmap, hcount]
  · intro h1
    simp [update_article, hne, h1]

/-- Witness for C6 on a one-article database and a missing id / the present id. -/
theorem update_article_rowcount_witness :
    ([(ArticleColumn.title, some "new")] : List (ArticleColumn × Option String)) ≠ [] ∧
    ((∀ r ∈ ({ articles := [{ id := "h1" }] } : DB).articles, r.id ≠ "zz") →
      update_article { articles := [{ id := "h1" }] } "zz" [(ArticleColumn.title, some "new")] =
        ({ articles := [{ id := "h1" }] }, some 0)) ∧
    (({ articles := [{ id := "h1" }] } : DB).articles.countP (fun r => r.id == "zz") = 1 →
      (update_article { articles := [{ id := "h1" }] } "zz"
        [(ArticleColumn.title, some "new")]).2 = some 1) :=
  ⟨by simp,
   update_article_rowcount { articles := [{ id := "h1" }] } "zz"
     [(ArticleColumn.title, some "new")] (by simp)⟩

/-- C9: for every database state, `get_articles` pages the articles sorted
by `date_added` descending: at most `limit` rows, after dropping `skip`
rows of that order; the sort is pairwise descending; and the pages `(0,2)`
and `(2,2)` concatenate to the first 4 sorted articles, without duplicates
and disjointly (so over 5 stored articles they are the first 4 of the 5). -/
theorem get_articles_pagination (db : DB) (skip limit : Nat)
    (hnd : db.articles.Nodup) :
    (get_articles db skip limit).length ≤ limit ∧
    get_articles db skip limit = ((db.articles.mergeSort dateDescLe).drop skip).take limit ∧
    (db.articles.mergeSort dateDescLe).Pairwise (fun a b => dateDescLe a b) ∧
    get_articles db 0 2 ++ get_articles db 2 2 = (db.articles.mergeSort dateDescLe).take 4 ∧
    (get_articles db 0 2 ++ get_articles db 2 2).Nodup ∧
    (get_articles db 0 2).Disjoint (get_articles db 2 2) := by
  have hsortnd : (db.articles.mergeSort dateDescLe).Nodup :=
    (List.mergeSort_perm db.articles dateDescLe).symm.nodup hnd
  have hpages : get_articles db 0 2 ++ get_articles db 2 2 =
      (db.articles.mergeSort dateDescLe).take 4 := by
    show ((db.articles.mergeSort dateDescLe).drop 0).take 2 ++
        ((db.articles.mergeSort dateDescLe).drop 2).take 2 = _
    rw [List.drop_zero]
    exact (List.take_add _ 2 2).symm
  have h4 : (get_articles db 0 2 ++ get_articles db 2 2).Nodup := by
    rw [hpages]
    exact List.Nodup.sublist (List.take_sublist _ _) hsortnd
  exact ⟨List.length_take_le _ _, rfl,
    List.sorted_mergeSort dateDescLe_trans dateDescLe_total _, hpages, h4,
    List.disjoint_of_nodup_append h4⟩

/-- Witness for C9 on five concrete distinct articles. -/
theorem get_articles_pagination_witness :
    sampleArticles.Nodup ∧
    ((get_articles { articles := sampleArticles } 1 3).length ≤ 3 ∧
     get_articles { articles := sampleArticles } 1 3 =
       ((sampleArticles.mergeSort dateDescLe).drop 1).take 3 ∧
     (sampleArticles.mergeSort dateDescLe).Pairwise (fun a b => dateDescLe a b) ∧
     get_articles { articles := sampleArticles } 0 2 ++
         get_articles { articles := sampleArticles } 2 2 =
       (sampleArticles.mergeSort dateDescLe).take 4 ∧
     (get_articles { articles := sampleArticles } 0 2 ++
         get_articles { articles := sampleArticles } 2 2).Nodup ∧
     (get_articles { articles := sampleArticles } 0 2).Disjoint
       (get_articles { articles := sampleArticles } 2 2)) :=
  ⟨by decide, get_articles_pagination { articles := sampleArticles } 1 3 (by decide)⟩

/-- C10: `create_text` inserts a `texts` row with `audio_file` unset: the
INSERT covers only id, text, date_added, language and plain_text, so an
`audio_file` value in the input is never persisted. -/
theorem create_text_never_persists_audio_file (today : String) (db : DB) (t : TextInput)
    (hfresh : ∀ r ∈ db.texts, r.id ≠ generate_hash t.text) :
    create_text today db t = .ok {db with texts := db.texts ++
      [{ id := generate_hash t.text, text := some t.text,
         date_added := some (t.date_added.getD today), language := t.language,
         plain_text := t.plain_text, audio_file := none }]} := by
  have hany : db.texts.any (fun r => r.id == generate_hash t.text) = false :=
    List.any_eq_false.mpr (fun r hr => by simp [hfresh r hr])
  simp [create_text, hany]

/-- Witness for C10: the input carries `audio_file = "audio/x.mp3"`, the
stored row has `audio_file = NULL`. -/
theorem create_text_never_persists_audio_file_witness :
    (∀ r ∈ ({} : DB).texts, r.id ≠ generate_hash "hello") ∧
    create_text "2025-01-01" {} { text := "hello", audio_file := some "audio/x.mp3" } =
      .ok {({} : DB) with texts := ({} : DB).texts ++
        [{ id := generate_hash "hello", text := some "hello",
           date_added := some ((none : Option String).getD "2025-01-01"),
           language := none, plain_text := none, audio_file := none }]} :=
  ⟨by simp, create_text_never_persists_audio_file "2025-01-01" {}
    { text := "hello", audio_file := some "audio/x.mp3" } (by simp)⟩

/-- C4: `create_article` never rejects `date_published`: when it is absent
or fails to parse as a `YYYY-MM-DD` calendar date, the article row is still
inserted with `date_published` unset and every other column as supplied,
with no error raised. -/
theorem create_article_lenient_date (today : String) (db : DB) (a : ArticleInput)
    (names : Option (List String))
    (hfresh : ∀ r ∈ db.articles, r.id ≠ generate_hash a.url)
    (hbad : ∀ s, a.date_published = some s → parseYMD s = none) :
    ∃ db', create_article today db a names = .ok db' ∧
      db'.articles = db.articles ++
        [{ id := generate_hash a.url, url := some a.url, title := a.title,
           date_published := none, date_added := some (a.date_added.getD today),
           language := a.language, plain_text := a.plain_text,
           markdown_text := a.markdown_text, tl_dr := a.tl_dr,
           audio_file := a.audio_file, markdown_file := a.markdown_file,
           vtt_file := a.vtt_file }] := by
  have hdp : normalize_date_published a.date_published = none := by
    cases hd : a.date_published with
    | none => rfl
    | some s => simp [normalize_date_published, hbad s hd]
  have hany : db.articles.any (fun r => r.id == generate_hash a.url) = false :=
    List.any_eq_false.mpr (fun r hr => by simp [hfresh r hr])
  have hok : create_article today db a names = .ok (addAuthorLinks (generate_hash a.url)
      {db with articles := db.articles ++
        [{ id := generate_hash a.url, url := some a.url, title := a.title,
           date_published := none, date_added := some (a.date_added.getD today),
           language := a.language, plain_text := a.plain_text,
           markdown_text := a.markdown_text, tl_dr := a.tl_dr,
           audio_file := a.audio_file, markdown_file := a.markdown_file,
           vtt_file := a.vtt_file }]} (names.getD [])) := by
    simp [create_article, hany, hdp]
  exact ⟨_, hok, by rw [addAuthorLinks_articles]⟩

/-- Witness for C4 with the invalid calendar date `"2024-02-30"`. -/
theorem create_article_lenient_date_witness :
    (∀ r ∈ ({} : DB).articles, r.id ≠ generate_hash "https://example.com/a") ∧
    (∀ s, (some "2024-02-30" : Option String) = some s → parseYMD s = none) ∧
    (∃ db', create_article "2025-01-01" {}
        { url := "https://example.com/a", date_published := some "2024-02-30" } none = .ok db' ∧
      db'.articles = ({} : DB).articles ++
        [{ id := generate_hash "https://example.com/a", url := some "https://example.com/a",
           title := none, date_published := none,
           date_added := some ((none : Option String).getD "2025-01-01"),
           language := none, plain_text := none, markdown_text := none, tl_dr := none,
           audio_file := none, markdown_file := none, vtt_file := none }]) :=
  ⟨by simp, fun s h => by injection h with h; subst h; decide,
   create_article_lenient_date "2025-01-01" {}
     { url := "https://example.com/a", date_published := some "2024-02-30" } none
     (by simp) (fun s h => by injection h with h; subst h; decide)⟩

/-- C8: a second `create_article` call with an already-present URL fails
with the storage layer's uniqueness violation, which propagates to the
caller uncaught (and, being uncommitted, leaves the database unchanged). -/
theorem create_article_duplicate_url_error
    (today1 today2 : String) (db db1 : DB) (a a' : ArticleInput)
    (names names' : Option (List String))
    (hurl : a'.url = a.url)
    (h1 : create_article today1 db a names = .ok db1) :
    create_article today2 db1 a' names' = .error .integrityError := by
  obtain ⟨r, harts, hid⟩ := create_article_ok_articles today1 db db1 a names h1
  have hany : db1.articles.any (fun x => x.id == generate_hash a'.url) = true := by
    rw [hurl, harts]
    simp [hid]
  unfold create_article
  simp [hany]

/-- Witness for C8: two calls on the same URL, second one errors. -/
theorem create_article_duplicate_url_error_witness :
    ({ url := "https://example.com/a" } : ArticleInput).url =
      ({ url := "https://example.com/a" } : ArticleInput).url ∧
    create_article "2025-01-01" {} { url := "https://example.com/a" } none =
      .ok { articles := [{ id := generate_hash "https://example.com/a",
                           url := some "https://example.com/a",
                           date_added := some "2025-01-01" }] } ∧
    create_article "2025-01-02"
        { articles := [{ id := generate_hash "https://example.com/a",
                         url := some "https://example.com/a",
                         date_added := some "2025-01-01" }] }
        { url := "https://example.com/a" } none = .error .integrityError :=
  ⟨rfl, by simp [create_article, normalize_date_published, addAuthorLinks],
   create_article_duplicate_url_error "2025-01-01" "2025-01-02" {}
     { articles := [{ id := generate_hash "https://example.com/a",
                      url := some "https://example.com/a",
                      date_added := some "2025-01-01" }] }
     { url := "https://example.com/a" } { url := "https://example.com/a" } none none rfl
     (by simp [create_article, normalize_date_published, addAuthorLinks])⟩

/-- C2 (failing input): a database whose only row is a `texts` row with a
non-null `audio_file`.  The texts query selects `NULL as title`, but the
`AvailableMedia` model requires `title` to be a string, so
`fetch_available_media` raises a validation error instead of returning the
`'text'`-tagged entry the claim promises. -/
theorem fetch_available_media_text_null_title :
    fetch_available_media
      { texts := [{ id := "t1", text := some "hello",
                    date_added := some "2024-01-01",
                    audio_file := some "audio/t.mp3" }] } =
      .error .validationError := by rfl

/-- C7: `create_article` does find-or-create by exact author name: two calls
with different URLs and the same single author name leave exactly one
`authors` row with that name, and each call adds one `article_author` join
row linking its new article to that same author. -/
theorem create_article_author_find_or_create
    (today1 today2 : String) (db : DB) (a1 a2 : ArticleInput) (n : String)
    (hfresh1 : ∀ r ∈ db.articles, r.id ≠ generate_hash a1.url)
    (hfresh2 : ∀ r ∈ db.articles, r.id ≠ generate_hash a2.url)
    (hne : generate_hash a1.url ≠ generate_hash a2.url)
    (hauth : db.authors.countP (fun r => r.name == n) ≤ 1) :
    ∃ db1 db2 aid,
      create_article today1 db a1 (some [n]) = .ok db1 ∧
      create_article today2 db1 a2 (some [n]) = .ok db2 ∧
      db2.authors.countP (fun r => r.name == n) = 1 ∧
      db1.article_author = db.article_author ++ [(generate_hash a1.url, aid)] ∧
      db2.article_author = db.article_author ++
        [(generate_hash a1.url, aid), (generate_hash a2.url, aid)] ∧
      ∃ r ∈ db2.authors, r.name = n ∧ r.rowid = aid := by
  have hany1 : db.articles.any (fun r => r.id == generate_hash a1.url) = false :=
    List.any_eq_false.mpr (fun r hr => by simp [hfresh1 r hr])
  cases hfind : db.authors.find? (fun a => a.name == n) with
  | some a0 =>
      have hp : (a0.name == n) = true := by
        have h0 := List.find?_some hfind
        simpa using h0
      have hmem : a0 ∈ db.authors := List.mem_of_find?_eq_some hfind
      have hcount : db.authors.countP (fun r => r.name == n) = 1 := by
        have : 0 < db.authors.countP (fun r => r.name == n) :=
          List.countP_pos_iff.mpr ⟨a0, hmem, hp⟩
        omega
      refine ⟨{db with
                 articles := db.articles ++ [articleRow today1 a1],
                 article_author := db.article_author ++
                   [(generate_hash a1.url, a0.rowid)]},
              {db with
                 articles := db.articles ++ [articleRow today1 a1, articleRow today2 a2],
                 article_author := db.article_author ++
                   [(generate_hash a1.url, a0.rowid), (generate_hash a2.url, a0.rowid)]},
              a0.rowid, ?_, ?_, ?_, rfl, rfl, ?_⟩
      · simp [create_article, hany1, addAuthorLinks, hfind, articleRow]
      · simp [create_article, addAuthorLinks, hfind, articleRow]
        exact ⟨hfresh2, hne⟩
      · simpa using hcount
      · exact ⟨a0, hmem, by simpa using hp, rfl⟩
  | none =>
      have hzero : db.authors.countP (fun r => r.name == n) = 0 :=
        List.countP_eq_zero.mpr (List.find?_eq_none.mp hfind)
      refine ⟨{db with
                 articles := db.articles ++ [articleRow today1 a1],
                 authors := db.authors ++ [⟨maxRowid db.authors + 1, n⟩],
                 article_author := db.article_author ++
                   [(generate_hash a1.url, maxRowid db.authors + 1)]},
              {db with
                 articles := db.articles ++ [articleRow today1 a1, articleRow today2 a2],
                 authors := db.authors ++ [⟨maxRowid db.authors + 1, n⟩],
                 article_author := db.article_author ++
                   [(generate_hash a1.url, maxRowid db.authors + 1),
                    (generate_hash a2.url, maxRowid db.authors + 1)]},
              maxRowid db.authors + 1, ?_, ?_, ?_, rfl, rfl, ?_⟩
      · simp [create_article, hany1, addAuthorLinks, hfind, articleRow]
      · simp [create_article, addAuthorLinks, hfind, articleRow, List.find?_append]
        exact ⟨hfresh2, hne⟩
      · simp [hzero]
      · exact ⟨⟨maxRowid db.authors + 1, n⟩, by simp, rfl, rfl⟩

/-- Witness for C7 on an empty database, two distinct example URLs and the
author name "Ada Lovelace". -/
theorem create_article_author_find_or_create_witness :
    (∀ r ∈ ({} : DB).articles, r.id ≠ generate_hash "https://a.example") ∧
    (∀ r ∈ ({} : DB).articles, r.id ≠ generate_hash "https://b.example") ∧
    generate_hash "https://a.example" ≠ generate_hash "https://b.example" ∧
    ({} : DB).authors.countP (fun r => r.name == "Ada Lovelace") ≤ 1 ∧
    (∃ db1 db2 aid,
      create_article "2025-01-01" {} { url := "https://a.example" }
        (some ["Ada Lovelace"]) = .ok db1 ∧
      create_article "2025-01-02" db1 { url := "https://b.example" }
        (some ["Ada Lovelace"]) = .ok db2 ∧
      db2.authors.countP (fun r => r.name == "Ada Lovelace") = 1 ∧
      db1.article_author = ({} : DB).article_author ++
        [(generate_hash "https://a.example", aid)] ∧
      db2.article_author = ({} : DB).article_author ++
        [(generate_hash "https://a.example", aid), (generate_hash "https://b.example", aid)] ∧
      ∃ r ∈ db2.authors, r.name = "Ada Lovelace" ∧ r.rowid = aid) :=
  ⟨by simp, by simp, by decide, by simp,
   create_article_author_find_or_create "2025-01-01" "2025-01-02" {}
     { url := "https://a.example" } { url := "https://b.example" } "Ada Lovelace"
     (by simp) (by simp) (by decide) (by simp)⟩

end Crud
